import Mathlib

/-!
Shallow embedding of the ResumeScanner front-end
(`client/src/pages/ScanResume.jsx`,
`client/src/components/ResumeScanner/ResumeUploadComponent.jsx`, and the
`ResumePreviewComponent` / `ResultsComponent` preview file).

The React components are modelled as explicit state records with pure step
functions; the browser effects the code performs (the single `fetch` POST)
are collected in an explicit effect trace.
-/

namespace ResumeScanner

/-- A browser `File` object as the components use it: `file.name`,
`file.type` (MIME type), `file.size`, and the text returned by
`file.text()`. -/
structure File where
  name : String
  mimeType : String
  size : Nat
  content : String
deriving DecidableEq

/-- A value stored in a `FormData` entry: either a `File` or a string
(JavaScript `FormData.append` stringifies non-file values). -/
inductive FormValue where
  | fileVal (f : File)
  | strVal (s : String)
deriving DecidableEq

/-- One `key ↦ value` entry of a multipart form body. -/
structure FormEntry where
  key : String
  value : FormValue
deriving DecidableEq

/-- The observable content of one `fetch` call in `scanResume`. -/
structure HttpRequest where
  url : String
  method : String
  body : List FormEntry
deriving DecidableEq

/-- Externally visible side effects a handler can perform. The code under
`src/` only ever performs `httpPost`; `storageWrite` is in the effect
alphabet so that "writes nothing to persistent storage" is a statable
property rather than vacuous. -/
inductive Effect where
  | httpPost (req : HttpRequest)
  | storageWrite (key value : String)
deriving DecidableEq

/-- Whether an effect is a persistent-storage write. -/
def Effect.isStorageWrite : Effect → Bool
  | .storageWrite _ _ => true
  | .httpPost _ => false

/-- The parsed JSON body the results panel consumes: `candidate_name`,
`ats_score`, `score_breakdown` (key/value pairs), `strengths`, `gaps`,
`recommendations`, `matching_keywords`, `missing_keywords`,
`overall_assessment`. -/
structure ScanResults where
  candidate_name : String
  ats_score : Int
  score_breakdown : List (String × Int)
  strengths : List String
  gaps : List String
  recommendations : List String
  matching_keywords : List String
  missing_keywords : List String
  overall_assessment : String
deriving DecidableEq

/-- Outcome of the `fetch` in `scanResume`: `ok` with the parsed JSON body,
a non-ok response with its `statusText`, or a thrown error (network failure
or JSON parse failure), caught by the surrounding `try`/`catch`. -/
inductive FetchOutcome where
  | ok (data : ScanResults)
  | notOk (statusText : String)
  | err (message : String)
deriving DecidableEq

/-- The `ScanResume` page component's `useState` pieces: `file`,
`jobDescription`, `isLoading`, `results`. -/
structure ScanState where
  file : Option File
  jobDescription : String
  isLoading : Bool
  results : Option ScanResults
deriving DecidableEq

/-- `formData.append('file', resumeFile)`: a real file is appended as a
file part; a `null` file would be stringified by `FormData.append`. -/
def formDataFileValue : Option File → FormValue
  | some f => .fileVal f
  | none => .strVal "null"

/-- The request `scanResume` builds: POST to
`http://localhost:5000/scan-resume/` with form entries `file` and
`job_description`. -/
def scanRequest (resumeFile : Option File) (jd : String) : HttpRequest :=
  { url := "http://localhost:5000/scan-resume/"
    method := "POST"
    body := [⟨"file", formDataFileValue resumeFile⟩,
             ⟨"job_description", .strVal jd⟩] }

/-- `scanResume` from `ScanResume.jsx`: sets `isLoading` true, issues one
fetch, on an ok response stores the parsed body in `results`, on a non-ok
response or a thrown error only logs, and in `finally` resets `isLoading`
to false. Returns the effect trace and the final component state. -/
def scanResume (s : ScanState) (resumeFile : Option File) (jd : String)
    (outcome : FetchOutcome) : List Effect × ScanState :=
  let s1 : ScanState := { s with isLoading := true }
  let s2 : ScanState :=
    match outcome with
    | .ok data => { s1 with results := some data }
    | .notOk _ => s1
    | .err _ => s1
  ([Effect.httpPost (scanRequest resumeFile jd)], { s2 with isLoading := false })

/-- The argument shapes of `onFileUpload`: the upload component calls it
either with a single file (drop / file-picker change) or with two
arguments `(file, jd)` from the submit button. -/
inductive UploadCallbackArg where
  | fileOnly (f : File)
  | withJd (f : Option File) (jd : String)
deriving DecidableEq

/-- `handleFileUpload` from `ScanResume.jsx`: with a defined second
argument it runs `scanResume`; with one argument it just stores the file.
The `outcome` parameter is the fetch environment and is only consulted on
the two-argument path. -/
def handleFileUpload (s : ScanState) (arg : UploadCallbackArg)
    (outcome : FetchOutcome) : List Effect × ScanState :=
  match arg with
  | .withJd f jd => scanResume s f jd outcome
  | .fileOnly f => ([], { s with file := some f })

/-- `handleJdChange` from `ScanResume.jsx`: stores the new job description
in the page state. -/
def handleJdChangePage (s : ScanState) (jd : String) : ScanState :=
  { s with jobDescription := jd }

/-- `ResumeUploadComponent`'s `useState` pieces: `dragActive`, `file`,
`jd`. -/
structure UploadState where
  dragActive : Bool
  file : Option File
  jd : String
deriving DecidableEq

/-- `handleDrop`: clears `dragActive`; when `e.dataTransfer.files[0]`
exists, stores it and calls `onFileUpload` with that single file (returned
as the second component). -/
def handleDrop (s : UploadState) (droppedFiles : List File) :
    UploadState × Option File :=
  match droppedFiles with
  | f :: _ => ({ s with dragActive := false, file := some f }, some f)
  | [] => ({ s with dragActive := false }, none)

/-- `handleChange` (file-picker input): when `e.target.files[0]` exists,
stores it and calls `onFileUpload` with that single file. -/
def handleChange (s : UploadState) (selected : List File) :
    UploadState × Option File :=
  match selected with
  | f :: _ => ({ s with file := some f }, some f)
  | [] => (s, none)

/-- `handleJdChange` in `ResumeUploadComponent`: stores the textarea value
in local `jd` and forwards the same value to `onJdChange`. -/
def handleJdChange (s : UploadState) (v : String) : UploadState × String :=
  ({ s with jd := v }, v)

/-- The `accept` attribute of the hidden file-picker input. -/
def fileInputAccept : String := ".pdf,.doc,.docx"

/-- JavaScript `String.prototype.trim`: strips leading and trailing
whitespace. -/
def jsTrim (s : String) : String :=
  ⟨((s.toList.dropWhile Char.isWhitespace).reverse.dropWhile
      Char.isWhitespace).reverse⟩

/-- The submit button's `disabled` expression:
`!file || !jd.trim() || isLoading` (an empty trimmed string is falsy). -/
def submitDisabled (s : UploadState) (isLoading : Bool) : Bool :=
  s.file.isNone || jsTrim s.jd == "" || isLoading

/-- Combined state of the page and the upload component it renders. -/
structure AppState where
  page : ScanState
  upload : UploadState
deriving DecidableEq

/-- User/browser events the two components react to. `submitClick`
carries the outcome the fetch environment would produce. -/
inductive AppEvent where
  | dragEnter
  | dragOver
  | dragLeave
  | drop (files : List File)
  | selectFiles (files : List File)
  | jdChange (v : String)
  | submitClick (outcome : FetchOutcome)
deriving DecidableEq

/-- One step of the composed UI: events are dispatched to the handlers of
`ResumeUploadComponent`, whose callbacks run the page's handlers. The
file-picker input and the textarea carry `disabled={isLoading}`, so their
events are dropped while a scan is in flight; the drop zone and the
button's guard are modelled exactly as written. The `fileOnly` callback
path never consults the fetch outcome, so a dummy outcome is passed
there. -/
def appStep (s : AppState) (ev : AppEvent) : List Effect × AppState :=
  match ev with
  | .dragEnter => ([], { s with upload := { s.upload with dragActive := true } })
  | .dragOver => ([], { s with upload := { s.upload with dragActive := true } })
  | .dragLeave => ([], { s with upload := { s.upload with dragActive := false } })
  | .drop files =>
      let r := handleDrop s.upload files
      let s1 : AppState := { s with upload := r.1 }
      match r.2 with
      | some f =>
          let h := handleFileUpload s1.page (.fileOnly f) (.err "")
          (h.1, { s1 with page := h.2 })
      | none => ([], s1)
  | .selectFiles files =>
      if s.page.isLoading then ([], s)
      else
        let r := handleChange s.upload files
        let s1 : AppState := { s with upload := r.1 }
        match r.2 with
        | some f =>
            let h := handleFileUpload s1.page (.fileOnly f) (.err "")
            (h.1, { s1 with page := h.2 })
        | none => ([], s1)
  | .jdChange v =>
      if s.page.isLoading then ([], s)
      else
        let r := handleJdChange s.upload v
        ([], { s with upload := r.1, page := handleJdChangePage s.page r.2 })
  | .submitClick outcome =>
      if submitDisabled s.upload s.page.isLoading then ([], s)
      else
        let h := handleFileUpload s.page (.withJd s.upload.file s.upload.jd) outcome
        (h.1, { s with page := h.2 })

/-- Initial state of both components, from their `useState` initialisers. -/
def initialApp : AppState :=
  { page := { file := none, jobDescription := "", isLoading := false, results := none }
    upload := { dragActive := false, file := none, jd := "" } }

/-- States reachable from the initial render by any event sequence. -/
inductive Reachable : AppState → Prop where
  | init : Reachable initialApp
  | step (s : AppState) (ev : AppEvent) : Reachable s → Reachable (appStep s ev).2

/-- The `fileContent` shapes `generatePreview` produces: `{type:'pdf',url}`,
`{type:'text',content}`, or `{type:'document',name,size,url}`. -/
inductive PreviewContent where
  | pdf (url : String)
  | text (content : String)
  | document (name : String) (size : Nat) (url : String)
deriving DecidableEq

/-- `ResumePreviewComponent`'s `useState` pieces relevant to previewing:
`fileContent`, `fileUrl`, `isLoadingPreview`, `previewError`. -/
structure PreviewState where
  fileContent : Option PreviewContent
  fileUrl : Option String
  isLoadingPreview : Bool
  previewError : Option String
deriving DecidableEq

/-- Whether `pat` occurs as a contiguous sublist of `l`. -/
def charSub (l pat : List Char) : Bool :=
  match l with
  | [] => pat.isEmpty
  | _ :: t => pat.isPrefixOf l || charSub t pat

/-- JavaScript `String.prototype.includes`: `s.includes(pat)` holds iff
`pat` occurs as a substring of `s`. -/
def jsIncludes (s pat : String) : Bool :=
  charSub s.toList pat.toList

/-- `generatePreview`: sets `isLoadingPreview`, clears `previewError`,
creates an object URL, then classifies the file by MIME type —
`application/pdf` exactly, a type containing `text` (whose `file.text()`
read may throw, modelled by `textReadOk`), or any other type as a generic
document; a throw sets `previewError` to `'Failed to load preview'`; the
`finally` block resets `isLoadingPreview`. -/
def generatePreview (s : PreviewState) (f : File) (url : String)
    (textReadOk : Bool) : PreviewState :=
  let s1 : PreviewState := { s with isLoadingPreview := true, previewError := none }
  let s2 : PreviewState := { s1 with fileUrl := some url }
  let s3 : PreviewState :=
    if f.mimeType == "application/pdf" then
      { s2 with fileContent := some (.pdf url) }
    else if jsIncludes f.mimeType "text" then
      if textReadOk then { s2 with fileContent := some (.text f.content) }
      else { s2 with previewError := some "Failed to load preview" }
    else
      { s2 with fileContent := some (.document f.name f.size url) }
  { s3 with isLoadingPreview := false }

/-- What the file-preview branch of `ResumePreviewComponent` renders:
the loading spinner, the error panel, the preview of `fileContent`, or the
"File Ready" placeholder, tested in that order. -/
inductive PreviewPane where
  | loadingPane
  | errorPane (msg : String)
  | contentPane (c : PreviewContent)
  | readyPane
deriving DecidableEq

/-- The `isLoadingPreview ? … : previewError ? … : fileContent ? … : …`
render chain of the file-preview branch. -/
def renderPreviewPane (s : PreviewState) : PreviewPane :=
  if s.isLoadingPreview then .loadingPane
  else
    match s.previewError with
    | some msg => .errorPane msg
    | none =>
      match s.fileContent with
      | some c => .contentPane c
      | none => .readyPane

/-- One tick of the scanning-animation interval:
`setScanPosition(prev => (prev >= 100 ? 0 : prev + 2))`. -/
def scanTick (p : Nat) : Nat :=
  if 100 ≤ p then 0 else p + 2

/-- The scan position after `n` ticks of the interval, starting from the
initial `useState(0)`. -/
def scanPosAfter : Nat → Nat
  | 0 => 0
  | n + 1 => scanTick (scanPosAfter n)

/-- The position the effect writes when `isLoading` becomes false:
`setScanPosition(0)`. -/
def scanPosOnStop : Nat := 0

/-- One rendered row of the Score Breakdown section: the label text, the
inline bar width (`width: value%`), and the value text (`value%`). -/
structure BreakdownRow where
  label : String
  barWidthPercent : Int
  valueText : Int
deriving DecidableEq

/-- JavaScript `String.prototype.replace` with a plain-string pattern:
replaces only the first occurrence. -/
def jsReplaceFirst (s pat repl : String) : String :=
  match s.splitOn pat with
  | [] => s
  | [x] => x
  | x :: y :: rest => x ++ repl ++ String.intercalate pat (y :: rest)

/-- The texts and values the results panel renders from a `ScanResults`
object. -/
structure ResultsView where
  candidateName : String
  atsScorePercent : Int
  breakdownRows : List BreakdownRow
  strengthItems : List String
  gapItems : List String
  recommendationItems : List String
  matchingKeywordChips : List String
  missingKeywordChips : List String
  assessmentText : String
deriving DecidableEq

/-- The Score Breakdown rows:
`Object.entries(results.score_breakdown).map(([key, value]) => …)` with
label `key.replace('_', ' ')`, bar width `value%`, text `value%`. -/
def renderScoreBreakdown (kvs : List (String × Int)) : List BreakdownRow :=
  kvs.map fun kv =>
    { label := jsReplaceFirst kv.1 "_" " "
      barWidthPercent := kv.2
      valueText := kv.2 }

/-- The results branch of `ResumePreviewComponent` (identical in
`ResultsComponent`): each section renders the corresponding field of the
`results` object directly. -/
def renderResults (r : ScanResults) : ResultsView :=
  { candidateName := r.candidate_name
    atsScorePercent := r.ats_score
    breakdownRows := renderScoreBreakdown r.score_breakdown
    strengthItems := r.strengths
    gapItems := r.gaps
    recommendationItems := r.recommendations
    matchingKeywordChips := r.matching_keywords
    missingKeywordChips := r.missing_keywords
    assessmentText := r.overall_assessment }

/-- Claim C1: every invocation of `scanResume` with a resume file and a job
description issues exactly one HTTP request — a POST to
`http://localhost:5000/scan-resume/` whose multipart body holds the file
under key `file` and the job description under key `job_description` — and
no score or analysis is computed locally: the stored results are exactly
the response body on an ok response and are untouched otherwise. -/
theorem scanResume_single_post (s : ScanState) (f : File) (jd : String)
    (outcome : FetchOutcome) :
    (scanResume s (some f) jd outcome).1 =
      [Effect.httpPost
        { url := "http://localhost:5000/scan-resume/"
          method := "POST"
          body := [⟨"file", FormValue.fileVal f⟩,
                   ⟨"job_description", FormValue.strVal jd⟩] }] ∧
    (scanResume s (some f) jd outcome).2.results =
      (match outcome with
        | .ok d => some d
        | .notOk _ => s.results
        | .err _ => s.results) := by
  cases outcome <;> simp [scanResume, scanRequest, formDataFileValue]

/-- Claim C2: on an ok response, `results` is set to exactly the parsed
body, and the results panel renders `ats_score`, the `score_breakdown`
values (both as bar width and as text), `strengths`, `gaps`,
`recommendations` and both keyword lists verbatim, without modifying,
recomputing or clamping any score. -/
theorem scanResume_ok_renders_verbatim (s : ScanState) (f : Option File)
    (jd : String) (d : ScanResults) :
    (scanResume s f jd (.ok d)).2.results = some d ∧
    (renderResults d).candidateName = d.candidate_name ∧
    (renderResults d).atsScorePercent = d.ats_score ∧
    (renderResults d).breakdownRows.map BreakdownRow.valueText =
      d.score_breakdown.map Prod.snd ∧
    (renderResults d).breakdownRows.map BreakdownRow.barWidthPercent =
      d.score_breakdown.map Prod.snd ∧
    (renderResults d).strengthItems = d.strengths ∧
    (renderResults d).gapItems = d.gaps ∧
    (renderResults d).recommendationItems = d.recommendations ∧
    (renderResults d).matchingKeywordChips = d.matching_keywords ∧
    (renderResults d).missingKeywordChips = d.missing_keywords ∧
    (renderResults d).assessmentText = d.overall_assessment := by
  refine ⟨by simp [scanResume], rfl, rfl, ?_, ?_, rfl, rfl, rfl, rfl, rfl, rfl⟩ <;>
    simp [renderResults, renderScoreBreakdown, List.map_map, Function.comp]

/-- Claim C3: when the response is not ok or the fetch throws, `results`
is left unchanged, and on every path — ok, non-ok, or thrown —
`isLoading` is reset to false when `scanResume` completes. -/
theorem scanResume_failure_preserves_results (s : ScanState)
    (f : Option File) (jd status msg : String) (outcome : FetchOutcome) :
    (scanResume s f jd (.notOk status)).2.results = s.results ∧
    (scanResume s f jd (.err msg)).2.results = s.results ∧
    (scanResume s f jd outcome).2.isLoading = false := by
  cases outcome <;> simp [scanResume]

/-- Claim C4: `scanResume` modifies only `isLoading` and `results`: the
stored file and job description are unchanged, its effect trace contains
no persistent-storage write, and a submit-button step leaves the upload
component's state untouched. -/
theorem scanResume_frame (s : ScanState) (f : Option File) (jd : String)
    (outcome : FetchOutcome) (a : AppState) :
    (scanResume s f jd outcome).2.file = s.file ∧
    (scanResume s f jd outcome).2.jobDescription = s.jobDescription ∧
    ((scanResume s f jd outcome).1.all fun e => ! e.isStorageWrite) = true ∧
    ((appStep a (.submitClick outcome)).2).upload = a.upload := by
  refine ⟨?_, ?_, ?_, ?_⟩
  · cases outcome <;> rfl
  · cases outcome <;> rfl
  · cases outcome <;> simp [scanResume, Effect.isStorageWrite]
  · simp only [appStep]
    split
    · rfl
    · cases outcome <;> rfl

/-- Claim C5: the scan position is always an even number between 0 and
100: each tick maps `p` to `0` when `p ≥ 100` and to `p + 2` otherwise,
starting from 0, and when loading stops the position is reset to 0. -/
theorem scanPosition_even_bounded :
    (∀ n, scanPosAfter n % 2 = 0 ∧ scanPosAfter n ≤ 100) ∧
    (∀ p, 100 ≤ p → scanTick p = 0) ∧
    (∀ p, p < 100 → scanTick p = p + 2) ∧
    scanPosOnStop = 0 := by
  refine ⟨?_, ?_, ?_, rfl⟩
  · intro n
    induction n with
    | zero => simp [scanPosAfter]
    | succ n ih =>
        obtain ⟨h2, h100⟩ := ih
        simp only [scanPosAfter, scanTick]
        split <;> omega
  · intro p hp
    simp [scanTick, hp]
  · intro p hp
    simp only [scanTick]
    split <;> omega

/-- Claim C5 witness: the invariant and the tick behaviour at concrete
points — position after 51 ticks, the wrap at 100, and the step at 98. -/
theorem scanPosition_even_bounded_witness :
    (scanPosAfter 51 % 2 = 0 ∧ scanPosAfter 51 ≤ 100) ∧
    (100 ≤ (100 : Nat) ∧ scanTick 100 = 0) ∧
    ((98 : Nat) < 100 ∧ scanTick 98 = 98 + 2) ∧
    scanPosOnStop = 0 :=
  ⟨scanPosition_even_bounded.1 51,
   ⟨le_refl 100, scanPosition_even_bounded.2.1 100 (le_refl 100)⟩,
   ⟨by omega, scanPosition_even_bounded.2.2.1 98 (by omega)⟩,
   scanPosition_even_bounded.2.2.2⟩

/-- Claim C6: a drop whose `dataTransfer` holds at least one file clears
the drag highlight, stores the first file, and notifies the parent with
that single file; a drop with an empty file list only clears the drag
highlight. -/
theorem handleDrop_first_file (s : UploadState) (f : File)
    (rest : List File) :
    handleDrop s (f :: rest) =
      ({ s with dragActive := false, file := some f }, some f) ∧
    handleDrop s [] = ({ s with dragActive := false }, none) :=
  ⟨rfl, rfl⟩

/-- Claim C7: in every reachable state of the composed UI, the upload
component's local `jd` equals the page's `jobDescription` — each change
event propagates the same textarea value to both copies. -/
theorem jd_copies_agree (s : AppState) (h : Reachable s) :
    s.upload.jd = s.page.jobDescription := by
  induction h with
  | init => rfl
  | step s ev _ ih =>
      cases ev with
      | dragEnter => exact ih
      | dragOver => exact ih
      | dragLeave => exact ih
      | drop files =>
          cases files <;> simp [appStep, handleDrop, handleFileUpload] <;> exact ih
      | selectFiles files =>
          cases hL : s.page.isLoading
          · cases files <;>
              simp [appStep, handleChange, handleFileUpload, hL] <;> exact ih
          · simpa [appStep, hL] using ih
      | jdChange v =>
          cases hL : s.page.isLoading
          · simp [appStep, handleJdChange, handleJdChangePage, hL]
          · simpa [appStep, hL] using ih
      | submitClick outcome =>
          cases hD : submitDisabled s.upload s.page.isLoading
          · cases outcome <;>
              simp [appStep, handleFileUpload, scanResume, hD] <;> exact ih
          · simpa [appStep, hD] using ih

/-- Claim C7 witness: the two copies agree in the initial state. -/
theorem jd_copies_agree_witness :
    initialApp.upload.jd = initialApp.page.jobDescription :=
  jd_copies_agree initialApp Reachable.init

/-- Claim C10: the `.pdf,.doc,.docx` restriction is only the file-picker
input's `accept` attribute; the drop handler accepts every file,
whatever its name or MIME type, as the selected resume and passes it to
the parent for scanning. -/
theorem drop_ignores_file_type (s : UploadState) (f : File) :
    fileInputAccept = ".pdf,.doc,.docx" ∧
    (handleDrop s [f]).1.file = some f ∧
    (handleDrop s [f]).2 = some f :=
  ⟨rfl, rfl, rfl⟩

/-- Claim C8: `generatePreview` classifies every file into exactly one of
`pdf` (MIME type exactly `application/pdf`), `text` (MIME type containing
`text`), or `document` (anything else); `isLoadingPreview` ends false on
every path, and when the read throws, `previewError` is set to
`Failed to load preview` and the error panel is rendered instead of a
preview. -/
theorem generatePreview_classifies (s : PreviewState) (f : File)
    (url : String) (textReadOk : Bool) :
    (generatePreview s f url textReadOk).isLoadingPreview = false ∧
    (f.mimeType = "application/pdf" →
      (generatePreview s f url textReadOk).fileContent =
        some (.pdf url)) ∧
    (f.mimeType ≠ "application/pdf" → jsIncludes f.mimeType "text" = true →
      (generatePreview s f url true).fileContent =
        some (.text f.content)) ∧
    (f.mimeType ≠ "application/pdf" → jsIncludes f.mimeType "text" = false →
      (generatePreview s f url textReadOk).fileContent =
        some (.document f.name f.size url)) ∧
    (f.mimeType ≠ "application/pdf" → jsIncludes f.mimeType "text" = true →
      (generatePreview s f url false).previewError =
        some "Failed to load preview" ∧
      renderPreviewPane (generatePreview s f url false) =
        .errorPane "Failed to load preview") := by
  refine ⟨?_, ?_, ?_, ?_, ?_⟩
  · rfl
  · intro h
    simp [generatePreview, h]
  · intro h ht
    simp [generatePreview, h, ht]
  · intro h ht
    cases textReadOk <;> simp [generatePreview, h, ht]
  · intro h ht
    refine ⟨by simp [generatePreview, h, ht], ?_⟩
    simp [generatePreview, renderPreviewPane, h, ht]

/-- A plain-text resume file used to instantiate the preview claims. -/
def plainTextResume : File :=
  { name := "resume.txt", mimeType := "text/plain", size := 3
    content := "abc" }

/-- A fresh preview state, as after the component's first render. -/
def freshPreview : PreviewState :=
  { fileContent := none, fileUrl := none, isLoadingPreview := false
    previewError := none }

/-- Claim C8 witness: a plain-text file whose read throws ends with
`isLoadingPreview` false, the error message set, and the error panel
rendered. -/
theorem generatePreview_classifies_witness :
    (plainTextResume.mimeType ≠ "application/pdf" ∧
      jsIncludes plainTextResume.mimeType "text" = true) ∧
    (generatePreview freshPreview plainTextResume "blob:1" false).isLoadingPreview = false ∧
    (generatePreview freshPreview plainTextResume "blob:1" false).previewError =
      some "Failed to load preview" ∧
    renderPreviewPane (generatePreview freshPreview plainTextResume "blob:1" false) =
      .errorPane "Failed to load preview" := by
  have h := generatePreview_classifies freshPreview plainTextResume "blob:1" false
  have hmt : plainTextResume.mimeType ≠ "application/pdf" := by decide
  have hinc : jsIncludes plainTextResume.mimeType "text" = true := by decide
  exact ⟨⟨hmt, hinc⟩, h.1, h.2.2.2.2 hmt hinc⟩

/-- Claim C9: a one-argument `onFileUpload` call (drop or file selection)
only stores the file and performs no effect; any step that performs an
effect at all is a submit-button click taken with the button enabled, so
the scan is only invoked with a selected file, a job description whose
trimmed value is non-empty, and no scan already in flight. -/
theorem scan_needs_enabled_submit (p : ScanState) (f : File)
    (o : FetchOutcome) (s : AppState) (ev : AppEvent)
    (h : (appStep s ev).1 ≠ []) :
    handleFileUpload p (.fileOnly f) o = ([], { p with file := some f }) ∧
    (∃ oc, ev = .submitClick oc) ∧
    (∃ g, s.upload.file = some g) ∧
    jsTrim s.upload.jd ≠ "" ∧
    s.page.isLoading = false := by
  refine ⟨rfl, ?_⟩
  cases ev with
  | dragEnter => exact absurd rfl h
  | dragOver => exact absurd rfl h
  | dragLeave => exact absurd rfl h
  | drop files =>
      exfalso
      cases files <;> simp [appStep, handleDrop, handleFileUpload] at h
  | selectFiles files =>
      exfalso
      cases hL : s.page.isLoading
      · cases files <;> simp [appStep, handleChange, handleFileUpload, hL] at h
      · simp [appStep, hL] at h
  | jdChange v =>
      exfalso
      cases hL : s.page.isLoading <;> simp [appStep, hL] at h
  | submitClick oc =>
      cases hD : submitDisabled s.upload s.page.isLoading
      · have hparts : (s.upload.file.isSome = true ∧
            ¬ jsTrim s.upload.jd = "") ∧ s.page.isLoading = false := by
          simpa [submitDisabled] using hD
        obtain ⟨⟨h1, h2⟩, h3⟩ := hparts
        exact ⟨⟨oc, rfl⟩, Option.isSome_iff_exists.mp h1, h2, h3⟩
      · exfalso
        simp [appStep, hD] at h

/-- An upload state with a file selected and a non-blank job description,
paired with an idle page: the submit button is enabled. -/
def readyApp : AppState :=
  { page := { file := some plainTextResume, jobDescription := "Python developer"
              isLoading := false, results := none }
    upload := { dragActive := false, file := some plainTextResume
                jd := "Python developer" } }

/-- Claim C9 witness: from the ready state, a submit click with a failing
response produces a non-empty effect trace, and the guard conditions hold
there. -/
theorem scan_needs_enabled_submit_witness :
    (appStep readyApp (.submitClick (.notOk "Internal Server Error"))).1 ≠ [] ∧
    ((∃ oc, AppEvent.submitClick (FetchOutcome.notOk "Internal Server Error") =
        .submitClick oc) ∧
      (∃ g, readyApp.upload.file = some g) ∧
      jsTrim readyApp.upload.jd ≠ "" ∧
      readyApp.page.isLoading = false) :=
  ⟨by decide,
   (scan_needs_enabled_submit readyApp.page plainTextResume
      (.notOk "Internal Server Error") readyApp
      (.submitClick (.notOk "Internal Server Error")) (by decide)).2⟩

end ResumeScanner
